import Mathlib

/-!
Verification of the finbot natural-language finance pipeline.

This file gives a shallow embedding, in Lean 4, of the pure logic of the
repository's core pipeline and proves the frozen claims about it:

* `bot/utils/amounts.py` — `parse_amount`, `format_currency`
* `bot/services/analytics_service.py` — `_has_destructive_intent`,
  `_validate_sql_safety`, `_execute_safe_query`, `answer_question`
* `bot/services/ai_service.py` — `_validate_and_normalize_response`
* `bot/handlers/natural_language.py` — `_process_ai_date`, `_classify_intent`,
  the intent fallback of `process_user_text_input`

Calls to the generative-AI model and to the database are the only effects of
that code; they are modelled as explicit oracle parameters (the text the model
returned, the rows the database returned), so every definition here is a total,
executable Lean function.  Python strings are modelled as Lean `String`
(operating on their `List Char` contents); finite `decimal.Decimal` values are
modelled by an explicit sign/coefficient/exponent triple, extended with
NaN/infinity markers where the code's behaviour on non-finite values matters
(`format_currency`).  An uncaught exception is an explicit `none` outcome.
-/

/-! ## String primitives

Python's `in`, `startswith`, `strip`, `lower`, `upper` and single-character
`replace` are modelled by hand over `List Char` so that every operation is
structurally recursive and kernel-reducible. -/

/-- `listPrefixEq p l` is true iff `p` is an initial segment of `l`
(Python `l.startswith(p)` on character lists). -/
def listPrefixEq : List Char → List Char → Bool
  | [], _ => true
  | _ :: _, [] => false
  | a :: as, b :: bs => a == b && listPrefixEq as bs

/-- `listContainsSeq p l` is true iff `p` occurs contiguously inside `l`
(Python `p in l` for strings; the empty pattern is contained in anything). -/
def listContainsSeq (pat : List Char) (l : List Char) : Bool :=
  match l with
  | [] => pat.isEmpty
  | c :: t => listPrefixEq pat (c :: t) || listContainsSeq pat t

/-- Python `needle in hay` for strings. -/
def strContains (hay pat : String) : Bool :=
  listContainsSeq pat.data hay.data

/-- Python `s.startswith(p)`. -/
def strStartsWith (s pat : String) : Bool :=
  listPrefixEq pat.data s.data

/-- Python `s.lower()` (ASCII; the denylists and labels compared are ASCII). -/
def strLower (s : String) : String :=
  String.mk (s.data.map Char.toLower)

/-- Python `s.upper()` (ASCII; the SQL keywords compared are ASCII). -/
def strUpper (s : String) : String :=
  String.mk (s.data.map Char.toUpper)

/-- Python `s.strip()`: drop whitespace from both ends. -/
def strTrim (s : String) : String :=
  String.mk (((s.data.dropWhile Char.isWhitespace).reverse.dropWhile Char.isWhitespace).reverse)

/-- Python `s.replace(a, b)` for a single-character pattern and replacement. -/
def strReplaceChar (s : String) (a b : Char) : String :=
  String.mk (s.data.map fun c => if c = a then b else c)

/-- Python `s.replace(c, "")` for a single-character pattern. -/
def strRemoveChar (s : String) (a : Char) : String :=
  String.mk (s.data.filter fun c => c ≠ a)

/-! ## Decimal model

`decimal.Decimal` values are triples (sign, coefficient, exponent), exactly as
in the Python decimal module: the denoted value is
`(-1)^neg * mant * 10^exp`.  A negatively signed zero (`Decimal("-0")`) is
representable, as in Python. -/

/-- A finite `decimal.Decimal` value: `(-1)^neg * mant * 10^exp`. -/
structure Dec where
  neg : Bool
  mant : Nat
  exp : Int
deriving DecidableEq, Repr

/-- The rational value denoted by a `Dec`. -/
def decValue (d : Dec) : ℚ :=
  (if d.neg then -1 else 1) * (d.mant : ℚ) * (10 : ℚ) ^ d.exp

/-- Python `x <= 0` on a finite `Decimal`: true iff negatively signed with a
nonzero coefficient, or the coefficient is zero (`-0 <= 0` holds too). -/
def decNonpos (d : Dec) : Bool :=
  d.neg || d.mant == 0

/-- Parse an optional leading sign (returns `true` for `-`). -/
def parseSign (l : List Char) : Bool × List Char :=
  match l with
  | '+' :: t => (false, t)
  | '-' :: t => (true, t)
  | _ => (false, l)

/-- Split a leading run of ASCII digits from the rest. -/
def takeDigits (l : List Char) : List Char × List Char :=
  (l.takeWhile Char.isDigit, l.dropWhile Char.isDigit)

/-- Numeric value of a digit run. -/
def digitsToNat (ds : List Char) : Nat :=
  ds.foldl (fun a c => a * 10 + (c.toNat - 48)) 0

/-- The `Decimal(string)` constructor on finite numeric strings:
`sign? (digits [. digits?] | . digits) [(e|E) sign? digits]`, whole string
consumed.  The special values `NaN`/`Infinity`, which Python also parses, are
modelled as parse failures here: both callers of this parser
(`parse_amount`, and the amount field of `_validate_and_normalize_response`)
raise on them at the immediately following `<= 0` comparison or `quantize`
call, uncaught in `parse_amount` and converted to `ValueError` in the
validator, so collapsing them into the failure branch preserves those two
callers' observable behaviour.  (`format_currency`, whose NaN behaviour
differs, does not go through this parser: its domain is `PyDecimal` below.) -/
def parseDec (s : String) : Option Dec :=
  let (neg, r1) := parseSign s.data
  let (ipart, r2) := takeDigits r1
  let (fpart, r3) :=
    match r2 with
    | '.' :: t => takeDigits t
    | _ => ([], r2)
  if ipart.isEmpty && fpart.isEmpty then none
  else
    match r3 with
    | [] => some ⟨neg, digitsToNat (ipart ++ fpart), -(fpart.length : Int)⟩
    | c :: t =>
      if c = 'e' || c = 'E' then
        let (eneg, t2) := parseSign t
        let (ed, t3) := takeDigits t2
        if ed.isEmpty || !t3.isEmpty then none
        else
          let e : Int := if eneg then -(digitsToNat ed : Int) else (digitsToNat ed : Int)
          some ⟨neg, digitsToNat (ipart ++ fpart), e - (fpart.length : Int)⟩
      else none

/-- Round `n / d` to the nearest integer, ties to even (`ROUND_HALF_EVEN`,
the default rounding of the Python decimal context). -/
def roundHalfEven (n d : Nat) : Nat :=
  let q := n / d
  let r := n % d
  if 2 * r < d then q
  else if 2 * r > d then q + 1
  else if q % 2 = 0 then q else q + 1

/-- Number of digits of a coefficient (`0` has one digit). -/
def decDigits (n : Nat) : Nat :=
  (Nat.toDigits 10 n).length

/-- Python `x.quantize(Decimal("0.01"))` under the default context: rescale to
exponent `-2` with half-even rounding; signal `InvalidOperation` (modelled as
`none`) when the resulting coefficient exceeds the context precision of 28
digits. -/
def quantize2 (d : Dec) : Option Dec :=
  let m := if d.exp ≥ -2 then d.mant * 10 ^ (d.exp + 2).toNat
           else roundHalfEven d.mant (10 ^ (-(d.exp + 2)).toNat)
  if 28 < decDigits m then none else some ⟨d.neg, m, -2⟩

/-- `bot/utils/amounts.py::parse_amount`: replace `,` by `.`, strip, convert
with `Decimal`, reject non-positive values, quantize to 2 decimal places.
`none` models every raising path (`InvalidOperation`). -/
def parse_amount (value : String) : Option Dec :=
  let normalized := strTrim (strReplaceChar value ',' '.')
  match parseDec normalized with
  | none => none
  | some amount =>
    if decNonpos amount then none
    else quantize2 amount

/-! ## Currency formatting (`bot/utils/amounts.py::format_currency`) -/

/-- Exactly `k` base-10 digit characters of `n` (least significant last);
the zero-padded fraction field of a fixed-point decimal rendering. -/
def natDigitsPadded (n k : Nat) : List Char :=
  ((List.range k).reverse).map fun i => Char.ofNat (48 + n / 10 ^ i % 10)

/-- The thousands-grouping loop of `format_currency`: walk the integer part
right to left, inserting a `.` before every group of three characters. -/
def groupStep (acc : String × Nat) (c : Char) : String × Nat :=
  let formatted := if acc.2 > 0 && acc.2 % 3 == 0 then "." ++ acc.1 else acc.1
  (String.singleton c ++ formatted, acc.2 + 1)

/-- `for i, digit in enumerate(reversed(integer_part)): ...` of the source. -/
def group_thousands (s : String) : String :=
  (s.data.reverse.foldl groupStep ("", 0)).1

/-- Python `decimal_part.ljust(2, "0")[:2]`. -/
def ljustTake2 (s : String) : String :=
  String.mk ((s.data ++ List.replicate (2 - s.data.length) '0').take 2)

/-- The value actually reaching `format_currency` after the `None` default:
a Python `Decimal`, which is finite, a quiet NaN, a signaling NaN, or an
infinity.  A `float`/`int` argument is its `Decimal(str(amount))` image
(`float("nan")` arrives as `Decimal("nan")`, a quiet NaN; `float("inf")` as
an infinity).  The sign of a NaN is irrelevant to every operation performed
here and is not carried. -/
inductive PyDecimal where
  | fin (d : Dec)
  | nanQuiet
  | nanSignaling
  | infinite (neg : Bool)
deriving DecidableEq, Repr

/-- `bot/utils/amounts.py::format_currency`.  The argument `none` models the
`None` input.  The result `none` models an exception escaping the function:
a quiet NaN passes `amount.quantize(Decimal("0.01"))` *quietly* (general
decimal arithmetic NaN propagation), so the `except (ValueError,
InvalidOperation)` clause does not fire, and the comparison
`is_negative = quantized < 0` — outside the `try` — then signals an uncaught
`InvalidOperation`.  A signaling NaN, an infinity, and a coefficient
overflowing the 28-digit context precision all raise inside the `try` and are
replaced by `Decimal("0")`.  The source stringifies the quantized decimal and
splits on `"."`; since a decimal with exponent `-2` (the only successful
quantize outcome) prints as `[-]intdigits.fracdigits`, and the `Decimal("0")`
fallback prints as `0`, the two split fields are computed here directly from
the coefficient. -/
def format_currency (x : Option PyDecimal) : Option String :=
  -- `if amount is None: amount = Decimal("0")`
  let a := x.getD (.fin ⟨false, 0, 0⟩)
  -- `try: quantized = amount.quantize(Decimal("0.01")) except ...: Decimal("0")`;
  -- `none` here means `quantized` is NaN
  let quantized : Option Dec :=
    match a with
    | .fin d => some ((quantize2 d).getD ⟨false, 0, 0⟩)
    | .nanQuiet => none
    | .nanSignaling => some ⟨false, 0, 0⟩
    | .infinite _ => some ⟨false, 0, 0⟩
  match quantized with
  | none =>
    -- `is_negative = quantized < 0` raises InvalidOperation on NaN, uncaught
    none
  | some q =>
    -- `is_negative = quantized < 0` (false on a negative zero)
    let is_negative := q.neg && q.mant != 0
    -- `if is_negative: quantized = -quantized`
    let q := if is_negative then { q with neg := false } else q
    -- `amount_str = str(quantized)` then split on "." (a surviving "-" sign of a
    -- negative zero lands in the integer field, exactly as in `"-0.00".split(".")`)
    let integer_part :=
      (if q.neg then "-" else "") ++ (Nat.toDigits 10 (q.mant / 10 ^ (-q.exp).toNat)).asString
    let decimal_part :=
      if q.exp < 0 then String.mk (natDigitsPadded (q.mant % 10 ^ (-q.exp).toNat) (-q.exp).toNat)
      else "00"
    -- `decimal_part = decimal_part.ljust(2, "0")[:2]`
    let decimal_part := ljustTake2 decimal_part
    let formatted_integer := group_thousands integer_part
    let sign := if is_negative then "-" else ""
    some (sign ++ "$" ++ formatted_integer ++ "," ++ decimal_part)

/-! ## Calendar dates and instants

`datetime.date` is modelled as a year/month/day triple, `datetime` instants as
seconds since the Unix epoch (an `Int`).  `America/Bogota` has been fixed at
UTC-05:00 since 1993, so the zone conversion of
`bot/utils/time_utils.py::convert_utc_to_local` is the constant offset
`-5 * 3600` for every instant the service handles. -/

/-- A calendar date (proleptic Gregorian). -/
structure CalDate where
  year : Int
  month : Nat
  day : Nat
deriving DecidableEq, Repr

/-- Gregorian leap-year rule. -/
def isLeap (y : Int) : Bool :=
  y % 4 == 0 && (y % 100 != 0 || y % 400 == 0)

/-- Days in a month (`m` is 1-based). -/
def daysInMonth (y : Int) (m : Nat) : Nat :=
  if m = 2 then (if isLeap y then 29 else 28)
  else if m = 4 || m = 6 || m = 9 || m = 11 then 30
  else 31

/-- Cumulative day count before month `m` (1-based). -/
def daysBeforeMonth (y : Int) (m : Nat) : Nat :=
  [0, 31, 59, 90, 120, 151, 181, 212, 243, 273, 304, 334].getD (m - 1) 0
    + (if isLeap y && m > 2 then 1 else 0)

/-- `datetime.date.toordinal`: day number with `0001-01-01 = 1`. -/
def toOrdinal (d : CalDate) : Int :=
  365 * (d.year - 1) + (d.year - 1).fdiv 4 - (d.year - 1).fdiv 100
    + (d.year - 1).fdiv 400 + (daysBeforeMonth d.year d.month : Int) + (d.day : Int)

/-- Inverse of `toOrdinal` (civil-from-days). -/
def fromOrdinal (n : Int) : CalDate :=
  let z := n - 719163 + 719468        -- days since 0000-03-01
  let era := z.fdiv 146097
  let doe := (z - era * 146097).toNat -- day of 400-year era, 0..146096
  let yoe := (doe - doe / 1460 + doe / 36524 - doe / 146096) / 365
  let doy := doe - (365 * yoe + yoe / 4 - yoe / 100)
  let mp := (5 * doy + 2) / 153
  let d := doy - (153 * mp + 2) / 5 + 1
  let m := if mp < 10 then mp + 3 else mp - 9
  ⟨(yoe : Int) + era * 400 + (if m ≤ 2 then 1 else 0), m, d⟩

/-- Ordinal of `1970-01-01` (`date(1970, 1, 1).toordinal()`). -/
def epochOrdinal : Int := 719163

/-- Calendar date of an epoch-seconds instant in UTC (`dt.date()`). -/
def utcDateOf (t : Int) : CalDate :=
  fromOrdinal (t.fdiv 86400 + epochOrdinal)

/-- Calendar date of an epoch-seconds instant in `America/Bogota`
(`convert_utc_to_local(t, "America/Bogota").date()`, offset UTC-05:00). -/
def bogotaDateOf (t : Int) : CalDate :=
  fromOrdinal ((t - 5 * 3600).fdiv 86400 + epochOrdinal)

/-- The instant `d` at 12:00:00 UTC, as epoch seconds
(`datetime.combine(d, time(hour=12), tzinfo=timezone.utc)`). -/
def noonUtcInstant (d : CalDate) : Int :=
  (toOrdinal d - epochOrdinal) * 86400 + 12 * 3600

/-- Modelled from the spec: the instant `d` at *local* noon in the fixed
`America/Bogota` timezone, expressed in UTC (12:00-05:00 = 17:00:00 UTC).
This renders the spec sentence "stored instant = `ai_date` at local noon,
expressed in UTC" for comparison against what the source computes. -/
def specLocalNoonExpressedUtc (d : CalDate) : Int :=
  (toOrdinal d - epochOrdinal) * 86400 + 17 * 3600

/-- Strict `YYYY-MM-DD` parsing: four zero-padded year digits, two month
digits, two day digits, and a valid Gregorian date in years 1..9999 — the
common domain of `datetime.strptime(s, "%Y-%m-%d")` (used by
`_process_ai_date`) and `date.fromisoformat` (used by the extraction
validator); the claims quantify over well-formed `YYYY-MM-DD` strings. -/
def parse_iso_date (s : String) : Option CalDate :=
  match s.data with
  | [y1, y2, y3, y4, '-', m1, m2, '-', d1, d2] =>
    if [y1, y2, y3, y4, m1, m2, d1, d2].all Char.isDigit then
      let y : Int := (digitsToNat [y1, y2, y3, y4] : Int)
      let m := digitsToNat [m1, m2]
      let d := digitsToNat [d1, d2]
      if 1 ≤ y && 1 ≤ m && m ≤ 12 && 1 ≤ d && d ≤ daysInMonth y m then
        some ⟨y, m, d⟩
      else none
    else none
  | _ => none

/-- `d.strftime("%Y-%m-%d")`: zero-padded ISO rendering. -/
def formatIsoDate (d : CalDate) : String :=
  let pad := fun (n w : Nat) =>
    let s := (Nat.toDigits 10 n).asString
    (List.replicate (w - s.length) '0').asString ++ s
  pad d.year.toNat 4 ++ "-" ++ pad d.month 2 ++ "-" ++ pad d.day 2

/-- `bot/handlers/natural_language.py::_process_ai_date`: parse the AI date;
if it is "today" in Bogota use the current UTC instant verbatim, otherwise the
date at noon UTC; on parse failure fall back to the current instant and the
current *UTC* calendar date.  Returns (stored instant, display date). -/
def process_ai_date (date_str : String) (now_utc : Int) : Int × CalDate :=
  match parse_iso_date date_str with
  | none => (now_utc, utcDateOf now_utc)
  | some ai_date =>
    let today_colombia := bogotaDateOf now_utc
    if ai_date = today_colombia then (now_utc, ai_date)
    else (noonUtcInstant ai_date, ai_date)

/-! ## Analytics service (`bot/services/analytics_service.py`)

The Gemini calls (`_generate_sql`, `_interpret_results`) and the database
session are effects; they enter the model as oracle parameters.  A result row
is a list of column-name/value pairs, each value given by its Python `str()`
rendering (the only use the guarded code makes of a value is
`str(v).upper() == 'ACTION_NOT_ALLOWED'`). -/

/-- One database result row: column name, `str()` of the value. -/
def Row : Type := List (String × String)

/-- The denylisted SQL keywords of `_validate_sql_safety`. -/
def dangerous_keywords : List String :=
  ["DROP", "DELETE", "INSERT", "UPDATE", "TRUNCATE",
   "ALTER", "CREATE", "GRANT", "REVOKE", "EXEC", "EXECUTE",
   "MERGE", "COPY", "CALL", "COMMIT", "ROLLBACK"]

/-- The denylisted function patterns of `_validate_sql_safety`. -/
def dangerous_functions : List String :=
  ["PG_", "EXEC", "EXECUTE"]

/-- `_validate_sql_safety`: `none` means safe; `some msg` is the error message
of the first failing check (the source returns `(False, msg)` there). -/
def validate_sql_safety (sql_query : String) : Option String :=
  let sql_upper := strTrim (strUpper sql_query)
  if strStartsWith sql_upper "SELECT" = false then
    some "La consulta debe ser solo SELECT"
  else
    match dangerous_keywords.find? (fun k => strContains sql_upper k) with
    | some k => some ("No se permiten operaciones " ++ k)
    | none =>
      if strContains sql_query ";" then some "No se permiten múltiples consultas"
      else
        match dangerous_functions.find? (fun f => strContains sql_upper f) with
        | some _ => some "No se permiten llamadas a funciones del sistema"
        | none => none

/-- Outcome of `_execute_safe_query`: whether the database session was ever
entered, and either the fetched rows or the message of the raised
`ValueError`. -/
structure ExecOutcome where
  dbCalled : Bool
  result : Except String (List Row)
deriving Inhabited

/-- `_execute_safe_query`: validate, then (and only then) run the query.
`dbRows` is the oracle for what `session.execute(...).fetchall()` would
return; the non-blocking user-id scoping check only logs a warning in the
source and has no modelled effect.  (A database-level failure would raise
`RuntimeError`; no claim depends on it, so the oracle returns rows.) -/
def execute_safe_query (sql_query : String) (user_id : Int) (dbRows : List Row) : ExecOutcome :=
  match validate_sql_safety sql_query with
  | some error_message => ⟨false, .error ("Consulta SQL no segura: " ++ error_message)⟩
  | none => ⟨true, .ok dbRows⟩

/-- The destructive-intent keyword list of `_has_destructive_intent`. -/
def destructive_keywords : List String :=
  ["borrar", "eliminar", "delete", "drop",
   "cambiar", "actualizar", "update", "modificar",
   "limpiar", "vaciar", "truncate", "clear",
   "remover", "quitar", "remove"]

/-- `_has_destructive_intent`: any denylisted keyword occurs in the lowercased
question. -/
def has_destructive_intent (question : String) : Bool :=
  destructive_keywords.any (fun keyword => strContains (strLower question) keyword)

/-- The fixed refusal string returned at each of the three checkpoints. -/
def refusal_message : String :=
  "⛔ Lo siento, soy un analista de datos y solo puedo **leer y consultar** tu información. Para borrar datos, por favor usa los comandos manuales o el menú."

/-- A single-quote character (`'`), used in the redundant literal check. -/
def singleQuote : String := String.singleton (Char.ofNat 39)

/-- The exceptions `answer_question` can raise: `ValueError` (empty question,
unsafe SQL) or `RuntimeError` (wrapped provider failure). -/
inductive AnswerError where
  | valueError (msg : String)
  | runtimeError (msg : String)
deriving DecidableEq, Repr

/-- Outcome of `answer_question`: whether `_generate_sql` (a model call) was
ever invoked, and the returned string or raised exception. -/
structure AnswerOutcome where
  sqlGenCalled : Bool
  result : Except AnswerError String

/-- `answer_question`.  Oracles: `genSql` is what `_generate_sql` returns
after its markdown/semicolon cleanup (`.error` if the provider call raised),
`dbRows` the fetched rows, `interpret` the text `_interpret_results` produces
from its own model call (that call's deterministic `ACTION_NOT_ALLOWED`
re-scan is modelled in `interpret_results` below). -/
def interpret_results (query_results : List Row) (aiAnswer : String) : String :=
  if query_results.any (fun r => r.any (fun kv => strUpper kv.2 == "ACTION_NOT_ALLOWED")) then
    refusal_message
  else aiAnswer

/-- `answer_question` itself (see `interpret_results` for the final stage). -/
def answer_question (question : String) (user_id : Int)
    (genSql : Except String String) (dbRows : List Row) (interpret : String) :
    AnswerOutcome :=
  -- `if not question or not question.strip(): raise ValueError(...)`
  if question.data.isEmpty || (strTrim question).data.isEmpty then
    ⟨false, .error (.valueError "Question cannot be empty")⟩
  else if has_destructive_intent question then
    ⟨false, .ok refusal_message⟩
  else
    match genSql with
    | .error e => ⟨true, .error (.runtimeError ("Error procesando tu pregunta: " ++ e))⟩
    | .ok sql_query =>
      let sql_upper := strUpper (strTrim sql_query)
      if strContains sql_upper "ACTION_NOT_ALLOWED"
          || strContains sql_upper ("SELECT " ++ singleQuote ++ "ACTION_NOT_ALLOWED" ++ singleQuote) then
        ⟨true, .ok refusal_message⟩
      else
        let ex := execute_safe_query sql_query user_id dbRows
        match ex.result with
        | .error msg => ⟨true, .error (.valueError msg)⟩
        | .ok query_results =>
          -- triple check on the first row's values
          if (match query_results with
              | [] => false
              | first :: _ => first.any (fun kv => strUpper kv.2 == "ACTION_NOT_ALLOWED")) then
            ⟨true, .ok refusal_message⟩
          else
            ⟨true, .ok (interpret_results query_results interpret)⟩

/-! ## Intent classifier and router fallback
(`bot/handlers/natural_language.py::_classify_intent`,
`process_user_text_input`) -/

/-- The model call inside `_classify_intent`: either the returned text or a
raised exception. -/
inductive ModelResp where
  | ok (text : String)
  | err
deriving DecidableEq

/-- The response cleanup of `_classify_intent`:
`response.text.strip().lower()` then `.replace('"', '').replace("'", "").strip()`. -/
def clean_classification (t : String) : String :=
  strTrim (strRemoveChar (strRemoveChar (strLower (strTrim t)) (Char.ofNat 34)) (Char.ofNat 39))

/-- `_classify_intent`: unclear labels and any exception from the model call
default to `"query"`. -/
def classify_intent (resp : ModelResp) : String :=
  match resp with
  | .err => "query"
  | .ok t =>
    let classification := clean_classification t
    if classification = "register" ∨ classification = "query" then classification
    else "query"

/-- What `_classify_intent` does as seen from the router: it can also raise
*before* its internal `try` (for instance when `GEMINI_API_KEY` is unset). -/
inductive ClassifierOutcome where
  | label (s : String)
  | raised
deriving DecidableEq

/-- The call to `_classify_intent` including its pre-`try` raising paths. -/
def classify_intent_call (apiKeyConfigured : Bool) (resp : ModelResp) : ClassifierOutcome :=
  if apiKeyConfigured then .label (classify_intent resp) else .raised

/-- The intent the router (`process_user_text_input`, step 1) proceeds with:
its own `except` handler around the classifier call defaults to
`"register"`. -/
def router_intent (apiKeyConfigured : Bool) (resp : ModelResp) : String :=
  match classify_intent_call apiKeyConfigured resp with
  | .label l => l
  | .raised => "register"

/-! ## Extraction validation (`bot/services/ai_service.py`) -/

/-- `models.py::CategoryType`. -/
inductive CategoryType where
  | EXPENSE
  | INCOME
deriving DecidableEq, Repr

/-- The slice of `models.py::Category` the validator reads. -/
structure Category where
  id : Int
  name : String
  type : CategoryType
deriving DecidableEq, Repr

/-- The parsed JSON object handed to `_validate_and_normalize_response`.
A `none` field is a missing key.  `amount` is the field's `str()` rendering
(the source computes `Decimal(str(parsed["amount"]))`); `category_id` is the
field's `int(...)` image (a value `int()` rejects raises out of the validator,
an error outcome no claim depends on). -/
structure AIResponse where
  amount : Option String
  category_id : Option Int
  ttype : Option String
  description : Option String
  date : Option String

/-- The date block of `_validate_and_normalize_response`: ISO-parse, reject
future dates and dates more than 3650 days in the past, renormalize with
`strftime("%Y-%m-%d")`.  Dates compare by their ordinals, as `datetime.date`
comparison does.  `today` is `date.today()` passed explicitly. -/
def validate_date (date_str : String) (today : CalDate) : Except String String :=
  match parse_iso_date date_str with
  | none => .error ("Invalid date format: " ++ date_str ++ ". Expected YYYY-MM-DD format")
  | some parsed_date =>
    if toOrdinal parsed_date > toOrdinal today then
      .error ("Date " ++ date_str ++ " is in the future")
    else if toOrdinal parsed_date < toOrdinal today - 3650 then
      .error ("Date " ++ date_str ++ " is too far in the past")
    else .ok (formatIsoDate parsed_date)

/-- The normalized dictionary `_validate_and_normalize_response` returns. -/
structure NormalizedResult where
  amount : Dec
  category_id : Int
  description : String
  ttype : String
  date : String
deriving Repr

/-- `_validate_and_normalize_response`: field presence, positive quantized
amount, category resolution, type validity, category/type agreement, date
window — in source order, first failure wins. -/
def validate_and_normalize_response (parsed : AIResponse) (categories : List Category)
    (today : CalDate) : Except String NormalizedResult :=
  match parsed.amount, parsed.category_id, parsed.ttype, parsed.description, parsed.date with
  | none, _, _, _, _ => .error "AI response missing required field: amount"
  | some _, none, _, _, _ => .error "AI response missing required field: category_id"
  | some _, some _, none, _, _ => .error "AI response missing required field: type"
  | some _, some _, some _, none, _ => .error "AI response missing required field: description"
  | some _, some _, some _, some _, none => .error "AI response missing required field: date"
  | some amountStr, some category_id, some typeRaw, some descriptionRaw, some dateRaw =>
    match parseDec amountStr with
    | none => .error "Invalid amount in AI response"
    | some amount0 =>
      if decNonpos amount0 then .error "Invalid amount in AI response: Amount must be positive"
      else
        match quantize2 amount0 with
        | none => .error "Invalid amount in AI response"
        | some amount =>
          match categories.find? (fun c => c.id == category_id) with
          | none => .error ("Category ID not found in user categories")
          | some category =>
            let transaction_type := strLower typeRaw
            if transaction_type ≠ "expense" ∧ transaction_type ≠ "income" then
              .error ("Invalid type: " ++ transaction_type ++ ". Must be expense or income")
            else
              let expected_category_type :=
                if transaction_type = "expense" then CategoryType.EXPENSE else CategoryType.INCOME
              if category.type ≠ expected_category_type then
                .error ("Category " ++ category.name ++ " type does not match transaction type "
                  ++ transaction_type)
              else
                match validate_date (strTrim dateRaw) today with
                | .error e => .error e
                | .ok date_str =>
                  .ok ⟨amount, category_id, strTrim descriptionRaw, transaction_type, date_str⟩

/-! ## Claims -/

/-- C10: a question that is empty or whitespace-only makes `answer_question`
raise `ValueError` first — the outcome is the same for every SQL-generation,
database and interpretation oracle, so no destructive-intent check, model
call, or database access can have taken place, and neither the refusal nor a
fallback string is produced. -/
theorem answer_question_empty_raises (question : String) (user_id : Int)
    (genSql : Except String String) (dbRows : List Row) (interpret : String)
    (h : (strTrim question).data.isEmpty = true) :
    answer_question question user_id genSql dbRows interpret =
      ⟨false, .error (.valueError "Question cannot be empty")⟩ := by
  have hcond : (question.data.isEmpty || (strTrim question).data.isEmpty) = true := by
    simp [h]
  simp [answer_question, hcond]

/-- Witness for C10 at the whitespace question `"   "`. -/
theorem answer_question_empty_raises_witness :
    answer_question "   " 7 (.ok "SELECT 1") [] "hola" =
      ⟨false, .error (.valueError "Question cannot be empty")⟩ :=
  answer_question_empty_raises "   " 7 (.ok "SELECT 1") [] "hola" (by decide)

/-- C2: a non-empty question containing a destructive-intent keyword makes
`answer_question` return the fixed refusal immediately; the outcome records
that `_generate_sql` (the model call) was never invoked, for every oracle. -/
theorem answer_question_destructive_refusal (question : String) (user_id : Int)
    (genSql : Except String String) (dbRows : List Row) (interpret : String)
    (hne : (question.data.isEmpty || (strTrim question).data.isEmpty) = false)
    (hk : ∃ k ∈ destructive_keywords, strContains (strLower question) k = true) :
    answer_question question user_id genSql dbRows interpret = ⟨false, .ok refusal_message⟩ := by
  have hd : has_destructive_intent question = true := by
    rw [has_destructive_intent, List.any_eq_true]
    obtain ⟨k, hk1, hk2⟩ := hk
    exact ⟨k, hk1, hk2⟩
  simp [answer_question, hne, hd]

/-- Witness for C2 at `"quiero borrar todo"` (contains `"borrar"`). -/
theorem answer_question_destructive_refusal_witness :
    answer_question "quiero borrar todo" 7 (.ok "SELECT 1") [] "hola" =
      ⟨false, .ok refusal_message⟩ :=
  answer_question_destructive_refusal "quiero borrar todo" 7 (.ok "SELECT 1") [] "hola"
    (by decide) ⟨"borrar", by decide, by decide⟩

/-- C4: when the well-formed AI date equals "today" in America/Bogota, the
stored instant is `now_utc` itself, untruncated. -/
theorem process_ai_date_today_exact (date_str : String) (now_utc : Int) (d : CalDate)
    (h1 : parse_iso_date date_str = some d)
    (h2 : d = bogotaDateOf now_utc) :
    process_ai_date date_str now_utc = (now_utc, d) := by
  simp [process_ai_date, h1, h2]

/-- Witness for C4: 2025-06-15 16:00:00 UTC is 2025-06-15 11:00 in Bogota. -/
theorem process_ai_date_today_exact_witness :
    process_ai_date "2025-06-15" 1750003200 = (1750003200, ⟨2025, 6, 15⟩) :=
  process_ai_date_today_exact "2025-06-15" 1750003200 ⟨2025, 6, 15⟩ (by decide) (by decide)

/-- C5 (counterexample to the claim as stated): for `ai_date` = 2025-06-14,
one day before "today" in Bogota at `now_utc` = 2025-06-15T16:00:00Z, the
stored instant is 2025-06-14T12:00:00Z (= 1749902400), which is *not* that
date at local Bogota noon expressed in UTC (that would be 17:00:00 UTC); the
two renderings the claim equates differ. -/
theorem process_ai_date_not_local_noon :
    process_ai_date "2025-06-14" 1750003200 = (1749902400, ⟨2025, 6, 14⟩) ∧
    specLocalNoonExpressedUtc ⟨2025, 6, 14⟩ ≠ 1749902400 := by
  constructor
  · decide
  · decide

/-- C5 (amended): when the well-formed AI date differs from "today" in
America/Bogota, the stored instant is that calendar date at 12:00:00 *UTC*
(07:00 local Bogota), not at local noon. -/
theorem process_ai_date_other_noon_utc (date_str : String) (now_utc : Int) (d : CalDate)
    (h1 : parse_iso_date date_str = some d)
    (h2 : d ≠ bogotaDateOf now_utc) :
    process_ai_date date_str now_utc = (noonUtcInstant d, d) := by
  simp [process_ai_date, h1, h2]

/-- Witness for the amended C5 at `ai_date` = 2025-06-14, one local day
before `now_utc` = 2025-06-15T16:00:00Z. -/
theorem process_ai_date_other_noon_utc_witness :
    process_ai_date "2025-06-14" 1750003200 = (noonUtcInstant ⟨2025, 6, 14⟩, ⟨2025, 6, 14⟩) :=
  process_ai_date_other_noon_utc "2025-06-14" 1750003200 ⟨2025, 6, 14⟩ (by decide) (by decide)

/-- C6 (counterexample to the claim as stated): the accepted, strictly
positive input `"0.001"` is quantized half-even to two decimal places, which
rounds it to the decimal `0.00` — an accepted input yielding a zero (not
strictly positive) result. -/
theorem parse_amount_accepts_zero_result :
    parse_amount "0.001" = some ⟨false, 0, -2⟩ ∧ decValue ⟨false, 0, -2⟩ = 0 := by
  constructor
  · decide
  · simp [decValue]

/-- C6 (amended): `parse_amount` either fails (non-numeric, zero, or negative
input, comma forms included) or returns the half-even 2-decimal quantization
of its parsed value, which is strictly positive *before* quantization; the
returned value carries exponent -2 and is never negative, but quantization
can round an accepted value below 0.005 down to zero. -/
theorem parse_amount_amended (s : String) :
    parse_amount s = none ∨
    ∃ d₀ d, parseDec (strTrim (strReplaceChar s ',' '.')) = some d₀ ∧
      d₀.neg = false ∧ 0 < d₀.mant ∧ quantize2 d₀ = some d ∧
      parse_amount s = some d ∧ d.exp = -2 ∧ d.neg = false := by
  cases hp : parseDec (strTrim (strReplaceChar s ',' '.')) with
  | none => left; simp [parse_amount, hp]
  | some d₀ =>
    by_cases hz : decNonpos d₀ = true
    · left; simp [parse_amount, hp, hz]
    · have hflags : d₀.neg = false ∧ d₀.mant ≠ 0 := by
        rw [decNonpos, Bool.or_eq_true] at hz
        push_neg at hz
        refine ⟨Bool.not_eq_true _ |>.mp hz.1, ?_⟩
        simpa using hz.2
      cases hq : quantize2 d₀ with
      | none => left; simp [parse_amount, hp, hz, hq]
      | some d =>
        right
        have hshape : d.exp = -2 ∧ d.neg = d₀.neg := by
          rw [quantize2] at hq
          split at hq <;> split at hq <;>
            first
              | (cases Option.some_inj.mp hq; exact ⟨rfl, rfl⟩)
              | exact Option.noConfusion hq
        refine ⟨d₀, d, rfl, hflags.1, Nat.pos_of_ne_zero hflags.2, hq, ?_, hshape.1, ?_⟩
        · simp [parse_amount, hp, hz, hq]
        · rw [hshape.2, hflags.1]

/-- C7: the extraction validator rejects a date field that does not parse as
an ISO calendar date, that lies after `today`, or that lies more than 3650
days before `today`; every date inside the window is accepted and normalized
back to zero-padded `YYYY-MM-DD`. -/
theorem validate_date_window (s : String) (today : CalDate) :
    (parse_iso_date s = none → ∃ e, validate_date s today = .error e) ∧
    (∀ d, parse_iso_date s = some d → toOrdinal today < toOrdinal d →
      ∃ e, validate_date s today = .error e) ∧
    (∀ d, parse_iso_date s = some d → toOrdinal d < toOrdinal today - 3650 →
      ∃ e, validate_date s today = .error e) ∧
    (∀ d, parse_iso_date s = some d → toOrdinal d ≤ toOrdinal today →
      toOrdinal today - 3650 ≤ toOrdinal d →
      validate_date s today = .ok (formatIsoDate d)) := by
  refine ⟨fun h => ?_, fun d h hf => ?_, fun d h hp => ?_, fun d h h1 h2 => ?_⟩
  · refine ⟨"Invalid date format: " ++ s ++ ". Expected YYYY-MM-DD format", ?_⟩
    simp [validate_date, h]
  · refine ⟨"Date " ++ s ++ " is in the future", ?_⟩
    simp only [validate_date, h]
    rw [if_pos hf]
  · refine ⟨"Date " ++ s ++ " is too far in the past", ?_⟩
    simp only [validate_date, h]
    rw [if_neg (by omega), if_pos hp]
  · simp only [validate_date, h]
    rw [if_neg (by omega), if_neg (by omega)]

/-- Witness for C7 with `today` = 2025-06-15: an in-window date is accepted
and renormalized; a malformed date, a future date, and a 15-year-old date are
rejected. -/
theorem validate_date_window_witness :
    validate_date "2025-06-10" ⟨2025, 6, 15⟩ = .ok (formatIsoDate ⟨2025, 6, 10⟩) ∧
    (∃ e, validate_date "2025-13-01" ⟨2025, 6, 15⟩ = .error e) ∧
    (∃ e, validate_date "2025-06-16" ⟨2025, 6, 15⟩ = .error e) ∧
    (∃ e, validate_date "2010-06-10" ⟨2025, 6, 15⟩ = .error e) := by
  refine ⟨?_, ?_, ?_, ?_⟩
  · exact (validate_date_window "2025-06-10" ⟨2025, 6, 15⟩).2.2.2 ⟨2025, 6, 10⟩
      (by decide) (by decide) (by decide)
  · exact (validate_date_window "2025-13-01" ⟨2025, 6, 15⟩).1 (by decide)
  · exact (validate_date_window "2025-06-16" ⟨2025, 6, 15⟩).2.1 ⟨2025, 6, 16⟩
      (by decide) (by decide)
  · exact (validate_date_window "2010-06-10" ⟨2025, 6, 15⟩).2.2.1 ⟨2010, 6, 10⟩
      (by decide) (by decide)

/-- Inversion for `_validate_sql_safety`: if it reports the query safe, every
one of its checks passed. -/
theorem validate_sql_safety_none_sound (sql : String)
    (h : validate_sql_safety sql = none) :
    strStartsWith (strTrim (strUpper sql)) "SELECT" = true ∧
    (∀ k ∈ dangerous_keywords, strContains (strTrim (strUpper sql)) k = false) ∧
    strContains sql ";" = false ∧
    (∀ f ∈ dangerous_functions, strContains (strTrim (strUpper sql)) f = false) := by
  rw [validate_sql_safety] at h
  split at h
  · exact Option.noConfusion h
  · rename_i hsel
    split at h
    · exact Option.noConfusion h
    · rename_i hkw
      split at h
      · exact Option.noConfusion h
      · rename_i hsemi
        split at h
        · exact Option.noConfusion h
        · rename_i hfn
          refine ⟨?_, ?_, ?_, ?_⟩
          · exact Bool.not_eq_false _ |>.mp hsel
          · intro k hk
            have := List.find?_eq_none.mp hkw k hk
            simpa using this
          · simpa using hsemi
          · intro f hf
            have := List.find?_eq_none.mp hfn f hf
            simpa using this

/-- C1: any generated SQL that fails a static safety check — not starting
with `SELECT` after uppercasing and stripping, containing a denylisted
keyword, containing a semicolon, or containing the system-function pattern
`PG_` — makes `_execute_safe_query` raise the safety `ValueError` without
ever entering a database session, for every database oracle. -/
theorem execute_safe_query_rejects_unsafe (sql : String) (user_id : Int) (dbRows : List Row)
    (h : strStartsWith (strTrim (strUpper sql)) "SELECT" = false ∨
         (∃ k ∈ dangerous_keywords, strContains (strTrim (strUpper sql)) k = true) ∨
         strContains sql ";" = true ∨
         strContains (strTrim (strUpper sql)) "PG_" = true) :
    (execute_safe_query sql user_id dbRows).dbCalled = false ∧
    ∃ msg, (execute_safe_query sql user_id dbRows).result = .error msg := by
  cases hv : validate_sql_safety sql with
  | some m =>
    exact ⟨by simp [execute_safe_query, hv],
           "Consulta SQL no segura: " ++ m, by simp [execute_safe_query, hv]⟩
  | none =>
    exfalso
    obtain ⟨hsel, hkw, hsemi, hfn⟩ := validate_sql_safety_none_sound sql hv
    rcases h with h | ⟨k, hk, hkc⟩ | h | h
    · rw [hsel] at h; exact Bool.noConfusion h
    · rw [hkw k hk] at hkc; exact Bool.noConfusion hkc
    · rw [hsemi] at h; exact Bool.noConfusion h
    · rw [hfn "PG_" (by simp [dangerous_functions])] at h; exact Bool.noConfusion h

/-- Witness for C1 at the mutating query `"DROP TABLE transactions"`. -/
theorem execute_safe_query_rejects_unsafe_witness :
    (execute_safe_query "DROP TABLE transactions" 7 []).dbCalled = false ∧
    ∃ msg, (execute_safe_query "DROP TABLE transactions" 7 []).result = .error msg :=
  execute_safe_query_rejects_unsafe "DROP TABLE transactions" 7 []
    (Or.inr (Or.inl ⟨"DROP", by decide, by decide⟩))

/-- C3: whenever the declared transaction type is valid but disagrees with
the resolved category's type, `_validate_and_normalize_response` ends in a
`ValidationError` — whatever the other fields hold, the result is never a
silently corrected success. -/
theorem validate_rejects_type_mismatch (parsed : AIResponse) (categories : List Category)
    (today : CalDate) (cid : Int) (c : Category) (ty : String)
    (hcid : parsed.category_id = some cid)
    (hfind : categories.find? (fun cat => cat.id == cid) = some c)
    (hty : parsed.ttype = some ty)
    (hval : strLower ty = "expense" ∨ strLower ty = "income")
    (hmm : c.type ≠ (if strLower ty = "expense" then CategoryType.EXPENSE else CategoryType.INCOME)) :
    ∃ e, validate_and_normalize_response parsed categories today = .error e := by
  have hnotboth : ¬(strLower ty ≠ "expense" ∧ strLower ty ≠ "income") := by
    rcases hval with hval | hval <;> simp [hval]
  cases ham : parsed.amount with
  | none => exact ⟨_, by simp [validate_and_normalize_response, ham] <;> rfl⟩
  | some amountStr =>
    cases hde : parsed.description with
    | none => exact ⟨_, by simp [validate_and_normalize_response, ham, hcid, hty, hde] <;> rfl⟩
    | some descriptionRaw =>
      cases hda : parsed.date with
      | none => exact ⟨_, by simp [validate_and_normalize_response, ham, hcid, hty, hde, hda] <;> rfl⟩
      | some dateRaw =>
        cases hpd : parseDec amountStr with
        | none =>
          exact ⟨_, by simp [validate_and_normalize_response, ham, hcid, hty, hde, hda, hpd] <;> rfl⟩
        | some amount0 =>
          by_cases hnp : decNonpos amount0 = true
          · exact ⟨_, by
              simp [validate_and_normalize_response, ham, hcid, hty, hde, hda, hpd, hnp] <;> rfl⟩
          · cases hq : quantize2 amount0 with
            | none =>
              exact ⟨_, by
                simp [validate_and_normalize_response, ham, hcid, hty, hde, hda, hpd, hnp, hq] <;> rfl⟩
            | some amount =>
              exact ⟨_, by
                simp [validate_and_normalize_response, ham, hcid, hty, hde, hda, hpd, hnp, hq,
                  hfind, hnotboth, hmm] <;> rfl⟩

/-- Witness for C3: the AI answer declares type `expense`, but category 1 is
an `INCOME` category. -/
theorem validate_rejects_type_mismatch_witness :
    ∃ e, validate_and_normalize_response
        ⟨some "20000", some 1, some "expense", some "almuerzo", some "2025-06-14"⟩
        [⟨1, "Nomina", .INCOME⟩] ⟨2025, 6, 15⟩ = .error e :=
  validate_rejects_type_mismatch
    ⟨some "20000", some 1, some "expense", some "almuerzo", some "2025-06-14"⟩
    [⟨1, "Nomina", .INCOME⟩] ⟨2025, 6, 15⟩ 1 ⟨1, "Nomina", .INCOME⟩ "expense"
    rfl (by decide) rfl (Or.inl (by decide)) (by decide)

/-- C8: `_classify_intent` always returns one of the two labels; a malformed
or ambiguous cleaned response, and any exception inside the classifier's own
call, yield `"query"`, while a classifier call that raises at the router
level makes `process_user_text_input` proceed with `"register"` — the two
fallback defaults differ. -/
theorem classify_intent_asymmetric_fallback (t : String)
    (hmal : clean_classification t ≠ "register") :
    (∀ r, classify_intent r = "register" ∨ classify_intent r = "query") ∧
    classify_intent .err = "query" ∧
    classify_intent (.ok t) = "query" ∧
    (∀ b r, router_intent b r = if b then classify_intent r else "register") ∧
    ("register" : String) ≠ "query" := by
  refine ⟨?_, rfl, ?_, ?_, by decide⟩
  · intro r
    cases r with
    | err => right; rfl
    | ok s =>
      rw [classify_intent]
      by_cases hc : clean_classification s = "register" ∨ clean_classification s = "query"
      · rw [if_pos hc]; exact hc
      · rw [if_neg hc]; right; rfl
  · rw [classify_intent]
    by_cases hc : clean_classification t = "register" ∨ clean_classification t = "query"
    · rw [if_pos hc]
      rcases hc with hc | hc
      · exact absurd hc hmal
      · exact hc
    · rw [if_neg hc]
  · intro b r
    cases b with
    | true => rfl
    | false => rfl

/-- Witness for C8 at the unclear model answer `"no estoy seguro"`. -/
theorem classify_intent_asymmetric_fallback_witness :
    classify_intent (.ok "no estoy seguro") = "query" ∧
    router_intent false (.ok "no estoy seguro") = "register" := by
  have h := classify_intent_asymmetric_fallback "no estoy seguro" (by decide)
  refine ⟨h.2.2.1, ?_⟩
  rw [h.2.2.2.1 false (.ok "no estoy seguro")]
  simp

/-- A string of the form `"-" ++ "$" ++ a ++ "," ++ b` starts with `-`. -/
theorem strStartsWith_sign_dash (a b : String) :
    strStartsWith ("-" ++ "$" ++ a ++ "," ++ b) "-" = true := rfl

/-- A string of the form `"" ++ "$" ++ a ++ "," ++ b` does not start with `-`. -/
theorem strStartsWith_sign_empty (a b : String) :
    strStartsWith ("" ++ "$" ++ a ++ "," ++ b) "-" = false := rfl

/-- `Char.ofNat (48 + r)` is a digit character for `r < 10`. -/
theorem char_ofNat_digit (r : Nat) (h : r < 10) : (Char.ofNat (48 + r)).isDigit = true := by
  interval_cases r <;> decide

/-- The two-place fraction field is the pair of its digit characters. -/
theorem natDigitsPadded_two (r : Nat) :
    natDigitsPadded r 2 = [Char.ofNat (48 + r / 10 ^ 1 % 10), Char.ofNat (48 + r / 10 ^ 0 % 10)] :=
  rfl

/-- `ljust(2, "0")[:2]` is the identity on a two-character string. -/
theorem ljustTake2_two (a b : Char) : ljustTake2 (String.mk [a, b]) = String.mk [a, b] := rfl

/-- Inversion for `quantize2`: a successful quantization keeps the sign and
has exponent `-2`. -/
theorem quantize2_shape (d q : Dec) (h : quantize2 d = some q) :
    ∃ M, q = ⟨d.neg, M, -2⟩ := by
  rw [quantize2] at h
  split at h <;> split at h <;>
    first
      | (cases Option.some_inj.mp h; exact ⟨_, rfl⟩)
      | exact Option.noConfusion h

/-- String concatenation is associative. -/
theorem strAppend_assoc (a b c : String) : a ++ b ++ c = a ++ (b ++ c) := by
  apply String.ext
  simp [String.data_append, List.append_assoc]

/-- The grouping fold only prepends to its accumulator: a fixed suffix `t`
rides along unchanged. -/
theorem foldl_groupStep_append (l : List Char) (t : String) :
    ∀ (s : String) (i : Nat),
      (l.foldl groupStep (s ++ t, i)).1 = (l.foldl groupStep (s, i)).1 ++ t := by
  induction l with
  | nil => intro s i; rfl
  | cons c r ih =>
    intro s i
    simp only [List.foldl_cons, groupStep]
    by_cases hc : (decide (i > 0) && (i % 3 == 0)) = true
    · rw [if_pos hc, if_pos hc, ← strAppend_assoc "." s t, ← strAppend_assoc]
      exact ih _ _
    · rw [if_neg hc, if_neg hc, ← strAppend_assoc]
      exact ih _ _

/-- The grouping fold depends on its position counter only through its
residue mod 3 (and positivity). -/
theorem foldl_groupStep_index (l : List Char) :
    ∀ (s : String) (i j : Nat), i % 3 = j % 3 → 0 < i → 0 < j →
      (l.foldl groupStep (s, i)).1 = (l.foldl groupStep (s, j)).1 := by
  induction l with
  | nil => intro s i j _ _ _; rfl
  | cons c r ih =>
    intro s i j hmod hi hj
    simp only [List.foldl_cons, groupStep]
    have h1 : decide (i > 0) = true := by simp [hi]
    have h2 : decide (j > 0) = true := by simp [hj]
    have hceq : (decide (i > 0) && (i % 3 == 0)) = (decide (j > 0) && (j % 3 == 0)) := by
      rw [h1, h2, hmod]
    rw [hceq]
    exact ih _ _ _ (by omega) (by omega) (by omega)

/-- Strings of at most three characters are not grouped: no separator is
inserted. -/
theorem group_thousands_short (s : String) (h : s.data.length ≤ 3) :
    group_thousands s = s := by
  obtain ⟨l⟩ := s
  rcases l with _ | ⟨a, _ | ⟨b, _ | ⟨c, _ | ⟨e, t⟩⟩⟩⟩
  · rfl
  · rfl
  · rfl
  · rfl
  · simp at h

/-- The grouping recurrence: splitting the last three characters off a longer
string inserts exactly one `.` separator before them.  Together with
`group_thousands_short` this characterizes `group_thousands` as grouping in
threes from the right with `.`. -/
theorem group_thousands_chunk (a b : List Char) (ha : a ≠ []) (hb : b.length = 3) :
    group_thousands (String.mk (a ++ b)) = group_thousands (String.mk a) ++ "." ++ String.mk b := by
  obtain ⟨x, y, z, rfl⟩ : ∃ x y z, b = [x, y, z] := by
    rcases b with _ | ⟨x, _ | ⟨y, _ | ⟨z, _ | ⟨w, t⟩⟩⟩⟩ <;> simp at hb
    exact ⟨x, y, z, rfl⟩
  obtain ⟨c, r, hcr⟩ : ∃ c r, a.reverse = c :: r := by
    cases hrev : a.reverse with
    | nil => exact absurd (List.reverse_eq_nil_iff.mp hrev) ha
    | cons c r => exact ⟨c, r, rfl⟩
  have hdata : ∀ l : List Char, (String.mk l).data = l := fun _ => rfl
  rw [group_thousands, group_thousands, hdata, hdata, List.reverse_append, List.foldl_append]
  have h3 : List.foldl groupStep ("", 0) ([x, y, z].reverse) = (String.mk [x, y, z], 3) := rfl
  rw [h3, hcr, List.foldl_cons, List.foldl_cons]
  have hg : groupStep (String.mk [x, y, z], 3) c =
      (String.singleton c ++ ("." ++ String.mk [x, y, z]), 4) := by
    simp +decide [groupStep]
  have hg0 : groupStep ("", 0) c = (String.singleton c, 1) := rfl
  rw [hg, hg0, foldl_groupStep_append r ("." ++ String.mk [x, y, z]) (String.singleton c) 4,
    foldl_groupStep_index r (String.singleton c) 4 1 (by norm_num) (by norm_num) (by norm_num),
    strAppend_assoc]

/-- C9 (counterexample to the claim as stated): two refutations at explicit
inputs.  First, the negatively signed zero `Decimal("-0")` — also reachable
as `float` `-0.0` — has value zero, yet `format_currency` renders a `-` sign
for it (quantization keeps the sign, `quantized < 0` is false, and the sign
character survives inside the integer field), so a sign is rendered for a
non-negative value.  Second, `format_currency` is not total: on a quiet NaN
(`Decimal("NaN")`, `float("nan")`) the quantize call propagates NaN quietly
past the `except` clause and the `quantized < 0` comparison raises an
uncaught `InvalidOperation` (`none` here), so it does not return a string. -/
theorem format_currency_nan_and_negative_zero :
    format_currency (some (.fin ⟨true, 0, 0⟩)) = some "$-0,00" ∧
    decValue ⟨true, 0, 0⟩ = 0 ∧
    format_currency (some .nanQuiet) = none := by
  refine ⟨by decide, ?_, rfl⟩
  simp [decValue]

/-- C9 (amended): `format_currency` returns a string on every input except a
quiet NaN, where the uncaught `InvalidOperation` escapes; `None`, signaling
NaNs, infinities and unquantizable coefficients render as `"$0,00"`; a
leading sign is rendered exactly when the quantized value is strictly
negative (negatively signed zeros instead surface a `-` inside the integer
field, as in `"$-0,00"`); the output always ends with the decimal separator
`,` followed by exactly two digit characters; and the integer field is
`group_thousands` of the integer digits, which groups in threes from the
right with `.` (the last two conjuncts characterize it). -/
theorem format_currency_amended :
    format_currency none = some "$0,00" ∧
    format_currency (some .nanQuiet) = none ∧
    format_currency (some .nanSignaling) = some "$0,00" ∧
    (∀ b, format_currency (some (.infinite b)) = some "$0,00") ∧
    (∀ d, quantize2 d = none → format_currency (some (.fin d)) = some "$0,00") ∧
    (∀ d q, quantize2 d = some q → ∀ out, format_currency (some (.fin d)) = some out →
      (strStartsWith out "-" = true ↔ q.neg = true ∧ q.mant ≠ 0)) ∧
    (∀ x out, format_currency x = some out →
      ∃ p c₁ c₂, out = p ++ "," ++ String.mk [c₁, c₂] ∧
        c₁.isDigit = true ∧ c₂.isDigit = true) ∧
    (∀ d q, quantize2 d = some q → ∃ intPart dec,
      format_currency (some (.fin d)) = some
        ((if (q.neg && (q.mant != 0)) = true then "-" else "") ++ "$" ++
          group_thousands intPart ++ "," ++ dec)) ∧
    (∀ s : String, s.data.length ≤ 3 → group_thousands s = s) ∧
    (∀ a b : List Char, a ≠ [] → b.length = 3 →
      group_thousands (String.mk (a ++ b)) =
        group_thousands (String.mk a) ++ "." ++ String.mk b) := by
  refine ⟨rfl, rfl, rfl, fun b => rfl, ?_, ?_, ?_, ?_, group_thousands_short, group_thousands_chunk⟩
  · intro d h
    simp only [format_currency, Option.getD_some, h, Option.getD_none]
    rfl
  · intro d q hq out hout
    simp only [format_currency, Option.getD_some, hq] at hout
    cases Option.some_inj.mp hout
    by_cases hn : (q.neg && (q.mant != 0)) = true
    · rw [if_pos hn, if_pos hn, strStartsWith_sign_dash]
      simp only [Bool.and_eq_true, bne_iff_ne] at hn
      simp [hn]
    · have hn' : (q.neg && (q.mant != 0)) = false := by
        revert hn; cases q.neg && (q.mant != 0) <;> simp
      have hnneg : ¬((q.neg && (q.mant != 0)) = true) := by simp [hn']
      rw [if_neg hnneg, if_neg hnneg, strStartsWith_sign_empty]
      constructor
      · intro hfalse; exact absurd hfalse (by simp)
      · rintro ⟨h1, h2⟩
        rw [h1] at hn'
        simp at hn'
        exact absurd hn' h2
  · intro x out hout
    have hzero : ∀ out, some "$0,00" = some out →
        ∃ p c₁ c₂, out = p ++ "," ++ String.mk [c₁, c₂] ∧
          c₁.isDigit = true ∧ c₂.isDigit = true := by
      intro o ho
      cases Option.some_inj.mp ho
      exact ⟨"$0", '0', '0', by decide, by decide, by decide⟩
    match x with
    | none => exact hzero out hout
    | some .nanQuiet => exact Option.noConfusion hout
    | some .nanSignaling => exact hzero out hout
    | some (.infinite b) => exact hzero out hout
    | some (.fin d) =>
      cases hq : quantize2 d with
      | none =>
        have h0 : format_currency (some (.fin d)) = some "$0,00" := by
          simp only [format_currency, Option.getD_some, hq, Option.getD_none]
          rfl
        rw [h0] at hout
        exact hzero out hout
      | some q =>
        obtain ⟨M, rfl⟩ := quantize2_shape d q hq
        simp only [format_currency, Option.getD_some, hq] at hout
        simp only [apply_ite Dec.exp, apply_ite Dec.mant, ite_self] at hout
        rw [if_pos (show (-2 : Int) < 0 by norm_num),
          show ((-(-2 : Int)).toNat) = 2 from rfl, natDigitsPadded_two, ljustTake2_two,
          Option.some_inj] at hout
        subst hout
        refine ⟨_, _, _, rfl, ?_, ?_⟩
        · exact char_ofNat_digit _ (Nat.mod_lt _ (by norm_num))
        · exact char_ofNat_digit _ (Nat.mod_lt _ (by norm_num))
  · intro d q hq
    simp only [format_currency, Option.getD_some, hq]
    exact ⟨_, _, rfl⟩

/-- Witness for the amended C9: an unquantizable coefficient renders as
`"$0,00"`; a strictly negative quantized value yields a leading sign; and the
grouping recurrence splits `1500` as `1.500`. -/
theorem format_currency_amended_witness :
    format_currency (some (.fin ⟨false, 10 ^ 30, 0⟩)) = some "$0,00" ∧
    (strStartsWith "-$5,00" "-" = true ↔
      ((⟨true, 500, -2⟩ : Dec).neg = true ∧ (⟨true, 500, -2⟩ : Dec).mant ≠ 0)) ∧
    group_thousands (String.mk (['1'] ++ ['5', '0', '0'])) =
      group_thousands (String.mk ['1']) ++ "." ++ String.mk ['5', '0', '0'] := by
  have h := format_currency_amended
  refine ⟨h.2.2.2.2.1 ⟨false, 10 ^ 30, 0⟩ (by decide), ?_, ?_⟩
  · exact h.2.2.2.2.2.1 ⟨true, 500, -2⟩ ⟨true, 500, -2⟩ (by decide) "-$5,00" (by decide)
  · exact h.2.2.2.2.2.2.2.2.2 ['1'] ['5', '0', '0'] (by decide) (by decide)
